import Mathlib

/-!
Shallow embedding of src/train.py from the pointnet_tf2 repository.

The file embeds, directly from the source:
  * the schedule functions get_bn_momentum and get_lr;
  * the argparse surface for the wandb flag;
  * drop-remainder batching of the training and validation file lists;
  * train_step and val_step over an abstract collaborator (model, loss,
    optimizer, parser are external to the training script);
  * the epoch loop: metric resets, the training loop (metric updates, step
    increment, schedule reassignment), the validation loop, and the
    per-epoch checkpoint write.

Stateful effects are made explicit: metric objects are recorded as the list
of update_state calls they receive, and checkpoint writes as the list of
save_weights target paths tagged with the Global Step that indexes them.
Floating point is modelled exactly: momentum over the rationals, learning
rate over the reals (the continuous decay branch uses a real power).
-/

namespace Pointnet

/-- One row of per-class scores: a single sample over the 40 classes. -/
abbrev Row : Type := List ℝ

/-- A rank-2 batch tensor: one row per sample. -/
abbrev Tensor2 : Type := List Row

/-- Embeds get_bn_momentum (train.py line 66): min(0.99, 0.5 + 0.0002*step). -/
def get_bn_momentum (step : ℕ) : ℚ :=
  min 0.99 (0.5 + 0.0002 * step)

/-- Embeds LR_DECAY_STEPS (train.py line 35). -/
def LR_DECAY_STEPS : ℕ := 7000

/-- Embeds LR_DECAY_RATE (train.py line 36). -/
noncomputable def LR_DECAY_RATE : ℝ := 0.7

/-- Embeds get_lr (train.py lines 76-88): a warm-up coefficient
min(1, step/2000) when warm_up is set, and a decay coefficient that is
decay_rate to the integer power step // decay_steps when staircase is set,
or to the real power step / decay_steps otherwise. -/
noncomputable def get_lr (initial_learning_rate : ℝ) (decay_steps : ℕ)
    (decay_rate : ℝ) (step : ℕ) (staircase : Bool) (warm_up : Bool) : ℝ :=
  let coeff1 : ℝ := if warm_up then min 1 ((step : ℝ) / 2000) else 1
  let coeff2 : ℝ :=
    if staircase then decay_rate ^ (step / decay_steps)
    else decay_rate ^ ((step : ℝ) / (decay_steps : ℝ))
  initial_learning_rate * coeff1 * coeff2

/-- Embeds the argparse handling of the wandb flag (train.py line 29):
the destination starts at the declared default True, and each occurrence
of the flag stores the constant True. -/
def parse_wandb (args : List String) : Bool :=
  args.foldl (fun acc a => if a = "--wandb" then true else acc) true

/-- Embeds tf.math.sigmoid applied to one scalar. -/
noncomputable def sigmoid (x : ℝ) : ℝ := 1 / (1 + Real.exp (-x))

/-- Helper for argmaxIdx: scans the tail keeping the first index of the
running maximum, matching tf.math.argmax tie-breaking. -/
noncomputable def argmaxAux : List ℝ → ℕ → ℝ → ℕ → ℕ
  | [], _, _, best => best
  | x :: xs, i, bv, best =>
      if bv < x then argmaxAux xs (i + 1) x i else argmaxAux xs (i + 1) bv best

/-- Embeds tf.math.argmax over one row (axis 1 of the batch tensor):
index of the first occurrence of the maximum; 0 on an empty row. -/
noncomputable def argmaxIdx : Row → ℕ
  | [] => 0
  | x :: xs => argmaxAux xs 1 x 0

/-- Embeds tf.one_hot(i, depth): 1.0 at position i, 0.0 elsewhere
(all zeros when i is out of range, as in TensorFlow). -/
noncomputable def oneHot (i depth : ℕ) : Row :=
  (List.range depth).map (fun j => if j = i then (1 : ℝ) else 0)

/-- Element-wise sigmoid over a batch of logits, as in
tf.math.sigmoid(train_logits) at train.py line 146. -/
noncomputable def sigmoidProbs (logits : Tensor2) : Tensor2 :=
  logits.map (fun r => r.map sigmoid)

/-- Hard one-hot assignment from probabilities: argmax over classes with
fixed depth 40, as in train.py lines 149-150. -/
noncomputable def hardOneHot (probs : Tensor2) : Tensor2 :=
  probs.map (fun r => oneHot (argmaxIdx r) 40)

/-- Embeds tf.data batching with drop_remainder=True (train.py line 55):
the list of full size-B chunks of l; the incomplete tail chunk is dropped. -/
def dropRemainderBatch (B : ℕ) (l : List α) : List (List α) :=
  (List.range (l.length / B)).map (fun i => (l.drop (i * B)).take B)

/-- The external collaborators of the training script: the model forward
pass (reading the shared batch-normalization momentum and the training
flag), the loss function, the model regularization-loss list, gradient
computation, and the optimizer update (reading the shared learning rate
and carrying its own slot state). -/
structure Collab (I P O G : Type) where
  forward : P → ℚ → I → Bool → Tensor2
  lossFn : Tensor2 → Tensor2 → ℝ
  regLosses : P → I → List ℝ
  gradient : ℝ → P → G
  applyGradients : G → ℝ → P → O → P × O

/-- One run configuration: the CLI-derived constants, the run timestamp,
the train/val file lists, the batch parser (tf_parse_filename), the
collaborators, and the initial model and optimizer state. -/
structure Config (F I P O G : Type) where
  batchSize : ℕ
  epochs : ℕ
  learningRate : ℝ
  timestamp : String
  trainFiles : List F
  valFiles : List F
  parseBatch : List F → I × Tensor2
  collab : Collab I P O G
  initParams : P
  initOpt : O

/-- Steps per epoch as printed at train.py line 107:
len(TRAIN_FILES) // BATCH_SIZE. -/
def stepsPerEpoch (cfg : Config F I P O G) : ℕ :=
  cfg.trainFiles.length / cfg.batchSize

/-- The training batches of one epoch: the file list batched with
drop_remainder then mapped through the parser (train.py lines 54-56). -/
def trainBatches (cfg : Config F I P O G) : List (I × Tensor2) :=
  (dropRemainderBatch cfg.batchSize cfg.trainFiles).map cfg.parseBatch

/-- The validation batches of one epoch (train.py lines 59-61). -/
def valBatches (cfg : Config F I P O G) : List (I × Tensor2) :=
  (dropRemainderBatch cfg.batchSize cfg.valFiles).map cfg.parseBatch

/-- The mutable state of the training script: the Global Step, the two
shared schedule variables, model parameters, optimizer state, the six
metric objects (recorded as the sequence of update_state calls each has
received), and the checkpoint artifacts written so far (save_weights
target path, tagged with the Global Step that indexes it). -/
structure TrainState (P O : Type) where
  step : ℕ
  bn : ℚ
  lr : ℝ
  params : P
  optSt : O
  trainAcc : List (Tensor2 × Tensor2)
  trainPrec : List (Tensor2 × Tensor2)
  trainRecall : List (Tensor2 × Tensor2)
  valAcc : List (Tensor2 × Tensor2)
  valPrec : List (Tensor2 × Tensor2)
  valRecall : List (Tensor2 × Tensor2)
  checkpoints : List (String × ℕ)

/-- Embeds train_step (train.py lines 110-121): forward pass in training
mode, loss = loss_fxn(labels, logits) + sum(model.losses), one gradient
computation and one optimizer update; returns (logits, loss,
model.losses[0]) together with the updated parameters and optimizer
state. -/
noncomputable def train_step (c : Collab I P O G) (bn : ℚ) (lr : ℝ)
    (p : P) (o : O) (inputs : I) (labels : Tensor2) :
    (Tensor2 × ℝ × ℝ) × P × O :=
  let logits := c.forward p bn inputs true
  let loss := c.lossFn labels logits + (c.regLosses p inputs).sum
  let gradients := c.gradient loss p
  let updated := c.applyGradients gradients lr p o
  ((logits, loss, (c.regLosses p inputs).headI), updated.1, updated.2)

/-- Embeds val_step (train.py lines 123-126): forward pass with training
disabled, returning logits only. -/
def val_step (c : Collab I P O G) (bn : ℚ) (p : P) (inputs : I) : Tensor2 :=
  c.forward p bn inputs false

/-- The state before the epoch loop: step = 0 (line 128), the schedule
variables initialized from step 0 (lines 69 and 91, with LR_ARGS of lines
89-90: staircase False, warm-up True), fresh metric objects, no
checkpoints. -/
noncomputable def initState (cfg : Config F I P O G) : TrainState P O where
  step := 0
  bn := get_bn_momentum 0
  lr := get_lr cfg.learningRate LR_DECAY_STEPS LR_DECAY_RATE 0 false true
  params := cfg.initParams
  optSt := cfg.initOpt
  trainAcc := []
  trainPrec := []
  trainRecall := []
  valAcc := []
  valPrec := []
  valRecall := []
  checkpoints := []

/-- Embeds the body of the training loop (train.py lines 141-162): one
train_step, sigmoid probabilities into the accuracy metric, argmax one-hot
(depth 40) into precision and recall, then the step increment followed by
reassignment of both schedule variables from the updated step. -/
noncomputable def trainBatchBody (cfg : Config F I P O G)
    (s : TrainState P O) (xy : I × Tensor2) : TrainState P O :=
  let res := train_step cfg.collab s.bn s.lr s.params s.optSt xy.1 xy.2
  let train_probs := res.1.1.map (fun r => r.map sigmoid)
  let train_one_hot := train_probs.map (fun r => oneHot (argmaxIdx r) 40)
  { s with
    params := res.2.1
    optSt := res.2.2
    trainAcc := s.trainAcc ++ [(xy.2, train_probs)]
    trainPrec := s.trainPrec ++ [(xy.2, train_one_hot)]
    trainRecall := s.trainRecall ++ [(xy.2, train_one_hot)]
    step := s.step + 1
    bn := get_bn_momentum (s.step + 1)
    lr := get_lr cfg.learningRate LR_DECAY_STEPS LR_DECAY_RATE (s.step + 1)
      false true }

/-- Embeds the body of the validation loop (train.py lines 165-174): one
val_step, sigmoid probabilities into the validation accuracy metric,
argmax one-hot (depth 40) into validation precision and recall. -/
noncomputable def valBatchBody (cfg : Config F I P O G)
    (s : TrainState P O) (xy : I × Tensor2) : TrainState P O :=
  let val_logits := val_step cfg.collab s.bn s.params xy.1
  let val_probs := val_logits.map (fun r => r.map sigmoid)
  let val_one_hot := val_probs.map (fun r => oneHot (argmaxIdx r) 40)
  { s with
    valAcc := s.valAcc ++ [(xy.2, val_probs)]
    valPrec := s.valPrec ++ [(xy.2, val_one_hot)]
    valRecall := s.valRecall ++ [(xy.2, val_one_hot)] }

/-- Embeds the metric resets at the top of each epoch (train.py lines
133-138). -/
def resetMetrics (s : TrainState P O) : TrainState P O :=
  { s with
    trainAcc := []
    trainPrec := []
    trainRecall := []
    valAcc := []
    valPrec := []
    valRecall := [] }

/-- The training phase of one epoch: the training-loop body folded over
the training batches in delivery order. -/
noncomputable def trainPhase (cfg : Config F I P O G) (s : TrainState P O) :
    TrainState P O :=
  (trainBatches cfg).foldl (trainBatchBody cfg) s

/-- The validation phase of one epoch: the validation-loop body folded
over the validation batches in delivery order. -/
noncomputable def valPhase (cfg : Config F I P O G) (s : TrainState P O) :
    TrainState P O :=
  (valBatches cfg).foldl (valBatchBody cfg) s

/-- The save_weights target path of train.py line 178:
model/checkpoints/TIMESTAMP/iter-STEP. -/
def checkpointPath (timestamp : String) (step : ℕ) : String :=
  "model/checkpoints/" ++ timestamp ++ "/iter-" ++ toString step

/-- Embeds the per-epoch checkpoint write (train.py lines 176-178): one
save_weights call at the current Global Step, appended to the artifacts
written so far. -/
def saveCheckpoint (cfg : Config F I P O G) (s : TrainState P O) :
    TrainState P O :=
  { s with
    checkpoints :=
      s.checkpoints ++ [(checkpointPath cfg.timestamp s.step, s.step)] }

/-- One iteration of the epoch loop (train.py lines 129-186): metric
resets, the training phase, the validation phase, the checkpoint write. -/
noncomputable def epochBody (cfg : Config F I P O G) (s : TrainState P O) :
    TrainState P O :=
  saveCheckpoint cfg (valPhase cfg (trainPhase cfg (resetMetrics s)))

/-- The whole run: the epoch body iterated EPOCHS times from the initial
state (train.py line 129). -/
noncomputable def runEpochs (cfg : Config F I P O G) : TrainState P O :=
  (epochBody cfg)^[cfg.epochs] (initState cfg)

/-- The schedule-synchronization invariant: both shared schedule variables
equal their schedule function applied to the current Global Step (with the
LR_ARGS of train.py lines 89-90). -/
def SchedInv (cfg : Config F I P O G) (s : TrainState P O) : Prop :=
  s.bn = get_bn_momentum s.step ∧
  s.lr = get_lr cfg.learningRate LR_DECAY_STEPS LR_DECAY_RATE s.step false true

/-- A degenerate collaborator over unit types, used to instantiate the
loop at concrete inputs. -/
noncomputable def unitCollab : Collab Unit Unit Unit Unit where
  forward := fun _ _ _ _ => []
  lossFn := fun _ _ => 0
  regLosses := fun _ _ => [0]
  gradient := fun _ _ => ()
  applyGradients := fun _ _ _ _ => ((), ())

/-- A concrete run configuration with one training file and batch size 1:
exactly one training batch per epoch. -/
noncomputable def cfgA : Config Unit Unit Unit Unit Unit where
  batchSize := 1
  epochs := 2
  learningRate := 1e-3
  timestamp := "t"
  trainFiles := [()]
  valFiles := []
  parseBatch := fun _ => ((), [])
  collab := unitCollab
  initParams := ()
  initOpt := ()

/-- A concrete run configuration with one training file and batch size 2:
the batch size exceeds the number of training samples, so drop-remainder
batching yields zero training batches per epoch. -/
noncomputable def cfgB : Config Unit Unit Unit Unit Unit where
  batchSize := 2
  epochs := 2
  learningRate := 1e-3
  timestamp := "t"
  trainFiles := [()]
  valFiles := []
  parseBatch := fun _ => ((), [])
  collab := unitCollab
  initParams := ()
  initOpt := ()

/-! ## Helper lemmas -/

/-- The number of training batches per epoch equals
len(TRAIN_FILES) // BATCH_SIZE. -/
theorem trainBatches_length (cfg : Config F I P O G) :
    (trainBatches cfg).length = stepsPerEpoch cfg := by
  simp [trainBatches, dropRemainderBatch, stepsPerEpoch]

/-- Folding the training-loop body adds the batch count to the step. -/
theorem foldl_trainBatchBody_step (cfg : Config F I P O G) :
    ∀ (l : List (I × Tensor2)) (s : TrainState P O),
      (l.foldl (trainBatchBody cfg) s).step = s.step + l.length := by
  intro l
  induction l with
  | nil => intro s; simp
  | cons b t ih =>
      intro s
      rw [List.foldl_cons, ih]
      show s.step + 1 + t.length = s.step + (t.length + 1)
      omega

/-- Folding the training-loop body leaves the checkpoint list unchanged. -/
theorem foldl_trainBatchBody_checkpoints (cfg : Config F I P O G) :
    ∀ (l : List (I × Tensor2)) (s : TrainState P O),
      (l.foldl (trainBatchBody cfg) s).checkpoints = s.checkpoints := by
  intro l
  induction l with
  | nil => intro s; rfl
  | cons b t ih =>
      intro s
      rw [List.foldl_cons]
      exact (ih _).trans rfl

/-- Each training-loop body reestablishes the schedule invariant. -/
theorem schedInv_trainBatchBody (cfg : Config F I P O G)
    (s : TrainState P O) (xy : I × Tensor2) :
    SchedInv cfg (trainBatchBody cfg s xy) :=
  ⟨rfl, rfl⟩

/-- Folding the training-loop body preserves the schedule invariant. -/
theorem foldl_trainBatchBody_schedInv (cfg : Config F I P O G) :
    ∀ (l : List (I × Tensor2)) (s : TrainState P O), SchedInv cfg s →
      SchedInv cfg (l.foldl (trainBatchBody cfg) s) := by
  intro l
  induction l with
  | nil => intro s h; exact h
  | cons b t ih =>
      intro s _
      rw [List.foldl_cons]
      exact ih _ (schedInv_trainBatchBody cfg s b)

/-- Folding the validation-loop body leaves the step, the schedule
variables, the parameters, the optimizer state and the checkpoint list
unchanged. -/
theorem foldl_valBatchBody_frame (cfg : Config F I P O G) :
    ∀ (l : List (I × Tensor2)) (s : TrainState P O),
      (l.foldl (valBatchBody cfg) s).step = s.step ∧
      (l.foldl (valBatchBody cfg) s).lr = s.lr ∧
      (l.foldl (valBatchBody cfg) s).bn = s.bn ∧
      (l.foldl (valBatchBody cfg) s).params = s.params ∧
      (l.foldl (valBatchBody cfg) s).optSt = s.optSt ∧
      (l.foldl (valBatchBody cfg) s).checkpoints = s.checkpoints := by
  intro l
  induction l with
  | nil => intro s; exact ⟨rfl, rfl, rfl, rfl, rfl, rfl⟩
  | cons b t ih =>
      intro s
      rw [List.foldl_cons]
      exact ih (valBatchBody cfg s b)

/-- The validation phase leaves the step, the schedule variables, the
parameters, the optimizer state and the checkpoint list unchanged. -/
theorem valPhase_frame (cfg : Config F I P O G) (s : TrainState P O) :
    (valPhase cfg s).step = s.step ∧
    (valPhase cfg s).lr = s.lr ∧
    (valPhase cfg s).bn = s.bn ∧
    (valPhase cfg s).params = s.params ∧
    (valPhase cfg s).optSt = s.optSt ∧
    (valPhase cfg s).checkpoints = s.checkpoints :=
  foldl_valBatchBody_frame cfg (valBatches cfg) s

/-- The training phase advances the step by the per-epoch batch count. -/
theorem trainPhase_step (cfg : Config F I P O G) (s : TrainState P O) :
    (trainPhase cfg s).step = s.step + stepsPerEpoch cfg := by
  have h := foldl_trainBatchBody_step cfg (trainBatches cfg) s
  rw [trainBatches_length] at h
  exact h

/-- The training phase leaves the checkpoint list unchanged. -/
theorem trainPhase_checkpoints (cfg : Config F I P O G) (s : TrainState P O) :
    (trainPhase cfg s).checkpoints = s.checkpoints :=
  foldl_trainBatchBody_checkpoints cfg (trainBatches cfg) s

/-- The metric reset leaves the step, the schedule variables and the
checkpoint list unchanged. -/
theorem resetMetrics_frame (s : TrainState P O) :
    (resetMetrics s).step = s.step ∧
    (resetMetrics s).checkpoints = s.checkpoints ∧
    (resetMetrics s).bn = s.bn ∧
    (resetMetrics s).lr = s.lr :=
  ⟨rfl, rfl, rfl, rfl⟩

/-- Each epoch advances the Global Step by exactly the number of training
batches per epoch. -/
theorem epochBody_step (cfg : Config F I P O G) (s : TrainState P O) :
    (epochBody cfg s).step = s.step + stepsPerEpoch cfg := by
  show (valPhase cfg (trainPhase cfg (resetMetrics s))).step = _
  rw [(valPhase_frame cfg _).1, trainPhase_step, (resetMetrics_frame s).1]

/-- Each epoch appends exactly one checkpoint artifact, written at the
Global Step reached after the training phase. -/
theorem epochBody_checkpoints (cfg : Config F I P O G) (s : TrainState P O) :
    (epochBody cfg s).checkpoints =
      s.checkpoints ++
        [(checkpointPath cfg.timestamp (s.step + stepsPerEpoch cfg),
          s.step + stepsPerEpoch cfg)] := by
  show (valPhase cfg (trainPhase cfg (resetMetrics s))).checkpoints ++
      [(checkpointPath cfg.timestamp
          (valPhase cfg (trainPhase cfg (resetMetrics s))).step,
        (valPhase cfg (trainPhase cfg (resetMetrics s))).step)] = _
  rw [(valPhase_frame cfg _).2.2.2.2.2, (valPhase_frame cfg _).1,
    trainPhase_checkpoints, trainPhase_step, (resetMetrics_frame s).1,
    (resetMetrics_frame s).2.1]

/-- The epoch body preserves the schedule invariant. -/
theorem epochBody_schedInv (cfg : Config F I P O G) (s : TrainState P O)
    (h : SchedInv cfg s) : SchedInv cfg (epochBody cfg s) := by
  have htr : SchedInv cfg (trainPhase cfg (resetMetrics s)) :=
    foldl_trainBatchBody_schedInv cfg (trainBatches cfg) (resetMetrics s) h
  constructor
  · show (valPhase cfg (trainPhase cfg (resetMetrics s))).bn =
        get_bn_momentum (valPhase cfg (trainPhase cfg (resetMetrics s))).step
    rw [(valPhase_frame cfg _).2.2.1, (valPhase_frame cfg _).1]
    exact htr.1
  · show (valPhase cfg (trainPhase cfg (resetMetrics s))).lr =
        get_lr cfg.learningRate LR_DECAY_STEPS LR_DECAY_RATE
          (valPhase cfg (trainPhase cfg (resetMetrics s))).step false true
    rw [(valPhase_frame cfg _).2.1, (valPhase_frame cfg _).1]
    exact htr.2

/-- After n epochs the Global Step is n times the per-epoch batch count
and the checkpoint list holds one artifact per completed epoch, indexed by
the Global Step at its end. -/
theorem runIterate_spec (cfg : Config F I P O G) :
    ∀ n : ℕ,
      ((epochBody cfg)^[n] (initState cfg)).step = n * stepsPerEpoch cfg ∧
      ((epochBody cfg)^[n] (initState cfg)).checkpoints =
        (List.range n).map (fun i =>
          (checkpointPath cfg.timestamp ((i + 1) * stepsPerEpoch cfg),
            (i + 1) * stepsPerEpoch cfg)) := by
  intro n
  induction n with
  | zero => exact ⟨by rw [Nat.zero_mul]; rfl, rfl⟩
  | succ n ih =>
      rw [Function.iterate_succ_apply']
      refine ⟨?_, ?_⟩
      · rw [epochBody_step, ih.1, Nat.succ_mul]
      · rw [epochBody_checkpoints, ih.2, ih.1, List.range_succ, List.map_append]
        simp [Nat.succ_mul]

/-! ## Claim theorems -/

/-- Claim C1: the Global Step starts at 0, is incremented by exactly 1 per
training batch, advances by exactly floor(num_training_files / batch_size)
over each full epoch, is never decremented and never reset (after n epochs
it is n times the per-epoch batch count), and when the batch size exceeds
the number of training files the epoch produces zero batches and the
training phase leaves it unchanged. -/
theorem C1_global_step (cfg : Config F I P O G) :
    (initState cfg).step = 0 ∧
    (∀ (s : TrainState P O) (xy : I × Tensor2),
      (trainBatchBody cfg s xy).step = s.step + 1) ∧
    (∀ s : TrainState P O,
      (trainPhase cfg s).step = s.step + cfg.trainFiles.length / cfg.batchSize) ∧
    (∀ s : TrainState P O,
      (epochBody cfg s).step = s.step + cfg.trainFiles.length / cfg.batchSize) ∧
    (∀ s : TrainState P O, s.step ≤ (epochBody cfg s).step) ∧
    (runEpochs cfg).step = cfg.epochs * (cfg.trainFiles.length / cfg.batchSize) ∧
    (cfg.trainFiles.length < cfg.batchSize →
      trainBatches cfg = [] ∧
      ∀ s : TrainState P O, (trainPhase cfg s).step = s.step) := by
  refine ⟨rfl, fun s xy => rfl, ?_, epochBody_step cfg, ?_, ?_, ?_⟩
  · intro s
    rw [trainPhase_step]
    rfl
  · intro s
    rw [epochBody_step]
    exact Nat.le_add_right _ _
  · exact (runIterate_spec cfg cfg.epochs).1
  · intro h
    have hempty : trainBatches cfg = [] := by
      simp [trainBatches, dropRemainderBatch, Nat.div_eq_of_lt h]
    exact ⟨hempty, fun s => by rw [trainPhase, hempty]; rfl⟩

/-- Witness for C1 at a concrete configuration whose batch size exceeds
the number of training files. -/
theorem C1_global_step_witness :
    cfgB.trainFiles.length < cfgB.batchSize ∧ trainBatches cfgB = [] :=
  ⟨by decide, ((C1_global_step cfgB).2.2.2.2.2.2 (by decide)).1⟩

/-- Claim C2: before training the schedule variables equal their schedule
functions at step 0; each training-loop body increments the step and then
reassigns both variables from the updated step, reestablishing the
invariant; the epoch body preserves the invariant; and both schedule
functions are deterministic functions of the step. -/
theorem C2_schedule_sync (cfg : Config F I P O G) :
    SchedInv cfg (initState cfg) ∧
    (∀ (s : TrainState P O) (xy : I × Tensor2),
      (trainBatchBody cfg s xy).step = s.step + 1 ∧
      SchedInv cfg (trainBatchBody cfg s xy)) ∧
    (∀ s : TrainState P O, SchedInv cfg s → SchedInv cfg (epochBody cfg s)) ∧
    (∀ a b : ℕ, a = b →
      get_bn_momentum a = get_bn_momentum b ∧
      ∀ (i R : ℝ) (D : ℕ) (st wu : Bool),
        get_lr i D R a st wu = get_lr i D R b st wu) := by
  refine ⟨⟨rfl, rfl⟩, fun s xy => ⟨rfl, rfl, rfl⟩, epochBody_schedInv cfg, ?_⟩
  rintro a b rfl
  exact ⟨rfl, fun _ _ _ _ _ => rfl⟩

/-- Witness for C2: the invariant propagated through one concrete epoch,
and determinism applied at a concrete step. -/
theorem C2_schedule_sync_witness :
    SchedInv cfgB (epochBody cfgB (initState cfgB)) ∧
    get_bn_momentum 7 = get_bn_momentum 7 :=
  ⟨(C2_schedule_sync cfgB).2.2.1 _ ((C2_schedule_sync cfgB).1),
   ((C2_schedule_sync cfgB).2.2.2 7 7 rfl).1⟩

/-- Unfolding of get_lr with staircase decay and warm-up disabled. -/
theorem get_lr_staircase_nowarm (i R : ℝ) (D step : ℕ) :
    get_lr i D R step true false = i * 1 * R ^ (step / D) := rfl

/-- Unfolding of get_lr with staircase decay and warm-up enabled. -/
theorem get_lr_staircase_warm (i R : ℝ) (D step : ℕ) :
    get_lr i D R step true true =
      i * min 1 ((step : ℝ) / 2000) * R ^ (step / D) := rfl

/-- Claim C3: get_lr returns initial * c1 * c2 with c1 = min(1, step/2000)
when warm-up is enabled else 1, and c2 = decay_rate to the floor of
step/decay_steps when staircase else decay_rate to the real power
step/decay_steps; consequently with warm-up enabled the learning rate at
step 0 is 0, in particular for the default initial rate 1e-3 with the
LR_ARGS of the script. -/
theorem C3_get_lr_formula :
    (∀ (i R : ℝ) (D step : ℕ) (st wu : Bool),
      get_lr i D R step st wu =
        i * (if wu then min 1 ((step : ℝ) / 2000) else 1) *
          (if st then R ^ (step / D) else R ^ ((step : ℝ) / (D : ℝ)))) ∧
    (∀ (i R : ℝ) (D : ℕ) (st : Bool), get_lr i D R 0 st true = 0) ∧
    get_lr 1e-3 7000 (0.7) 0 false true = 0 := by
  have h2 : ∀ (i R : ℝ) (D : ℕ) (st : Bool), get_lr i D R 0 st true = 0 := by
    intro i R D st
    have hmin : min (1 : ℝ) 0 = 0 := min_eq_right zero_le_one
    simp [get_lr, hmin]
  exact ⟨fun i R D step st wu => rfl, h2, h2 _ _ _ _⟩

/-- Claim C4: get_bn_momentum returns min(0.99, 0.5 + 0.0002*step), is
non-decreasing in the step, bounded above by 0.99, and equals 0.5 at
step 0. -/
theorem C4_bn_momentum :
    (∀ step : ℕ,
      get_bn_momentum step = min (0.99 : ℚ) (0.5 + 0.0002 * (step : ℚ))) ∧
    (∀ a b : ℕ, a ≤ b → get_bn_momentum a ≤ get_bn_momentum b) ∧
    (∀ step : ℕ, get_bn_momentum step ≤ 0.99) ∧
    get_bn_momentum 0 = 0.5 := by
  have h0 : min (0.99 : ℚ) 0.5 = 0.5 := min_eq_right (by norm_num)
  refine ⟨fun _ => rfl, ?_, fun step => min_le_left _ _,
    by simp [get_bn_momentum, h0]⟩
  intro a b h
  apply min_le_min le_rfl
  have hc : (a : ℚ) ≤ b := Nat.cast_le.mpr h
  have h2 : (0.0002 : ℚ) * a ≤ 0.0002 * b :=
    mul_le_mul_of_nonneg_left hc (by norm_num)
  linarith

/-- Witness for C4: monotonicity applied at the concrete steps 0 and
5000. -/
theorem C4_bn_momentum_witness :
    (0 : ℕ) ≤ 5000 ∧ get_bn_momentum 0 ≤ get_bn_momentum 5000 :=
  ⟨by decide, C4_bn_momentum.2.1 0 5000 (by decide)⟩

/-- Claim C5 counterexample: with staircase decay and the default warm-up
enabled, the learning rate is not constant on the half-open interval
[0*3, 1*3): steps 0 and 1 both lie in it yet give different values
(warm-up scales them differently). -/
theorem C5_staircase_counterexample :
    (0 * 3 ≤ (0 : ℕ) ∧ (0 : ℕ) < (0 + 1) * 3) ∧
    (0 * 3 ≤ (1 : ℕ) ∧ (1 : ℕ) < (0 + 1) * 3) ∧
    get_lr 1 3 (0.7) 0 true true ≠ get_lr 1 3 (0.7) 1 true true := by
  refine ⟨⟨by decide, by decide⟩, ⟨by decide, by decide⟩, ?_⟩
  have h0 : get_lr 1 3 (0.7) 0 true true = 0 := by
    rw [get_lr_staircase_warm, Nat.cast_zero, zero_div,
      min_eq_right zero_le_one, mul_zero, zero_mul]
  have h1 : get_lr 1 3 (0.7) 1 true true = 1 / 2000 := by
    rw [get_lr_staircase_warm,
      min_eq_right (by norm_num : ((1 : ℕ) : ℝ) / 2000 ≤ 1),
      show (1 : ℕ) / 3 = 0 from rfl, pow_zero, mul_one, one_mul]
    norm_num
  rw [h0, h1]
  norm_num

/-- Claim C5 amended: with staircase decay the learning rate is constant
on each interval [k*D, (k+1)*D) provided warm-up is disabled (it then
equals initial * R^k); with warm-up enabled it is constant on such an
interval provided the interval starts at or beyond step 2000, where the
warm-up coefficient has saturated. -/
theorem C5_staircase_step_function (i R : ℝ) (D k step : ℕ)
    (h1 : k * D ≤ step) (h2 : step < (k + 1) * D) :
    get_lr i D R step true false = i * R ^ k ∧
    get_lr i D R step true false = get_lr i D R (k * D) true false ∧
    (2000 ≤ k * D →
      get_lr i D R step true true = get_lr i D R (k * D) true true) := by
  have hD : 0 < D := by
    rcases Nat.eq_zero_or_pos D with hz | hp
    · subst hz; omega
    · exact hp
  have hdiv : step / D = k := Nat.div_eq_of_lt_le h1 h2
  have hdiv2 : k * D / D = k := Nat.mul_div_cancel k hD
  refine ⟨by rw [get_lr_staircase_nowarm, hdiv, mul_one],
    by rw [get_lr_staircase_nowarm, get_lr_staircase_nowarm, hdiv, hdiv2], ?_⟩
  intro hw
  have hstep : 2000 ≤ step := le_trans hw h1
  have e1 : min (1 : ℝ) ((step : ℝ) / 2000) = 1 :=
    min_eq_left ((one_le_div (by norm_num)).mpr (by exact_mod_cast hstep))
  have e2 : min (1 : ℝ) (((k * D : ℕ) : ℝ) / 2000) = 1 :=
    min_eq_left ((one_le_div (by norm_num)).mpr (by exact_mod_cast hw))
  rw [get_lr_staircase_warm, get_lr_staircase_warm, hdiv, hdiv2, e1, e2]

/-- Witness for C5: the amended constancy applied on the interval
[1000*2, 1001*2), which starts at step 2000. -/
theorem C5_staircase_step_function_witness :
    1000 * 2 ≤ 2001 ∧ 2001 < (1000 + 1) * 2 ∧ 2000 ≤ 1000 * 2 ∧
    get_lr 1 2 (0.7) 2001 true true = get_lr 1 2 (0.7) (1000 * 2) true true :=
  ⟨by decide, by decide, by decide,
   (C5_staircase_step_function 1 (0.7) 2 1000 2001 (by decide)
     (by decide)).2.2 (by decide)⟩

/-- Claim C6: the validation step runs the forward pass with training
disabled and returns logits only, and the validation loop mutates none of
the Global Step, the Learning Rate, the Batch-Normalization Momentum, the
Model Parameters (or the optimizer state): all are unchanged across the
validation segment. -/
theorem C6_validation_frame (cfg : Config F I P O G) :
    (∀ (bn : ℚ) (p : P) (x : I),
      val_step cfg.collab bn p x = cfg.collab.forward p bn x false) ∧
    (∀ (s : TrainState P O) (xy : I × Tensor2),
      (valBatchBody cfg s xy).step = s.step ∧
      (valBatchBody cfg s xy).lr = s.lr ∧
      (valBatchBody cfg s xy).bn = s.bn ∧
      (valBatchBody cfg s xy).params = s.params) ∧
    (∀ s : TrainState P O,
      (valPhase cfg s).step = s.step ∧
      (valPhase cfg s).lr = s.lr ∧
      (valPhase cfg s).bn = s.bn ∧
      (valPhase cfg s).params = s.params ∧
      (valPhase cfg s).optSt = s.optSt) := by
  refine ⟨fun _ _ _ => rfl, fun s xy => ⟨rfl, rfl, rfl, rfl⟩, fun s => ?_⟩
  have h := valPhase_frame cfg s
  exact ⟨h.1, h.2.1, h.2.2.1, h.2.2.2.1, h.2.2.2.2.1⟩

/-- Claim C7: train_step computes total loss as loss_fxn(labels, logits)
plus the sum of the model regularization losses, applies exactly one
optimizer update, and returns the triple of logits, total loss, and the
first regularization loss; the validation-loop body is the step type that
leaves the model parameters (and optimizer state) unchanged. -/
theorem C7_train_step_spec (c : Collab I P O G) (bn : ℚ) (lr : ℝ)
    (p : P) (o : O) (x : I) (y : Tensor2) :
    (train_step c bn lr p o x y).1.1 = c.forward p bn x true ∧
    (train_step c bn lr p o x y).1.2.1 =
      c.lossFn y (c.forward p bn x true) + (c.regLosses p x).sum ∧
    ((train_step c bn lr p o x y).2.1, (train_step c bn lr p o x y).2.2) =
      c.applyGradients
        (c.gradient (c.lossFn y (c.forward p bn x true) +
          (c.regLosses p x).sum) p)
        lr p o ∧
    (∀ h : c.regLosses p x ≠ [],
      (train_step c bn lr p o x y).1.2.2 = (c.regLosses p x).head h) ∧
    (∀ (cfg : Config F I P O G) (s : TrainState P O) (xy : I × Tensor2),
      (valBatchBody cfg s xy).params = s.params ∧
      (valBatchBody cfg s xy).optSt = s.optSt) := by
  refine ⟨rfl, rfl, rfl, ?_, fun cfg s xy => ⟨rfl, rfl⟩⟩
  intro h
  revert h
  cases hl : c.regLosses p x with
  | nil => intro h; exact absurd rfl h
  | cons a t =>
      intro h
      show (c.regLosses p x).headI = (a :: t).head h
      rw [hl]
      rfl

/-- Witness for C7: the head of the regularization-loss list at the
degenerate collaborator, whose loss list is the nonempty [0]. -/
theorem C7_train_step_spec_witness :
    unitCollab.regLosses () () ≠ [] ∧
    (train_step unitCollab (get_bn_momentum 0) 0 () () () []).1.2.2 =
      (unitCollab.regLosses () ()).head (List.cons_ne_nil 0 []) :=
  ⟨List.cons_ne_nil 0 [],
   (C7_train_step_spec (F := Unit) unitCollab (get_bn_momentum 0) 0
     () () () []).2.2.2.1 (List.cons_ne_nil 0 [])⟩

/-- Claim C8 counterexample: in a run whose batch size exceeds the number
of training files (zero training batches per epoch), the Global Step is
still 0 at the end of both epochs, so both per-epoch save_weights calls
target the same path: the second save is not a new step-indexed artifact. -/
theorem C8_checkpointing_counterexample :
    (runEpochs cfgB).checkpoints =
      [("model/checkpoints/t/iter-0", 0), ("model/checkpoints/t/iter-0", 0)] ∧
    ¬ (runEpochs cfgB).checkpoints.Nodup := by
  have h : (runEpochs cfgB).checkpoints =
      [("model/checkpoints/t/iter-0", 0),
        ("model/checkpoints/t/iter-0", 0)] := rfl
  refine ⟨h, ?_⟩
  rw [h]
  simp

/-- Claim C8 amended: every epoch persists the parameters exactly once, at
the path built from the run timestamp and the current Global Step,
appended after all previously written artifacts (none deleted); and
provided every epoch processes at least one training batch, each save
produces a new step-indexed artifact (all checkpoint entries are
pairwise distinct). -/
theorem C8_checkpointing (cfg : Config F I P O G) :
    (∀ s : TrainState P O,
      (epochBody cfg s).checkpoints =
        s.checkpoints ++
          [(checkpointPath cfg.timestamp (s.step + stepsPerEpoch cfg),
            s.step + stepsPerEpoch cfg)]) ∧
    (1 ≤ stepsPerEpoch cfg → (runEpochs cfg).checkpoints.Nodup) := by
  refine ⟨epochBody_checkpoints cfg, ?_⟩
  intro h
  rw [runEpochs, (runIterate_spec cfg cfg.epochs).2]
  refine List.Nodup.map ?_ (List.nodup_range _)
  intro a b hab
  have h2 := congrArg Prod.snd hab
  simp only at h2
  have h3 := Nat.eq_of_mul_eq_mul_right h h2
  omega

/-- Witness for C8: one training batch per epoch in the concrete
configuration cfgA, so the two checkpoint artifacts are distinct. -/
theorem C8_checkpointing_witness :
    1 ≤ stepsPerEpoch cfgA ∧ (runEpochs cfgA).checkpoints.Nodup :=
  ⟨by decide, (C8_checkpointing cfgA).2 (by decide)⟩

/-- Claim C9: in both the training and validation loop, the accuracy
metric is updated with the element-wise sigmoid probabilities of the
logits, and the precision and recall metrics with the one-hot assignment
obtained by argmax over classes at fixed depth 40 applied to those
probabilities: the derivation from logits is identical in the two
phases. -/
theorem C9_prediction_derivation (cfg : Config F I P O G)
    (s : TrainState P O) (xy : I × Tensor2) :
    (trainBatchBody cfg s xy).trainAcc =
      s.trainAcc ++ [(xy.2, sigmoidProbs
        (train_step cfg.collab s.bn s.lr s.params s.optSt xy.1 xy.2).1.1)] ∧
    (trainBatchBody cfg s xy).trainPrec =
      s.trainPrec ++ [(xy.2, hardOneHot (sigmoidProbs
        (train_step cfg.collab s.bn s.lr s.params s.optSt xy.1 xy.2).1.1))] ∧
    (trainBatchBody cfg s xy).trainRecall =
      s.trainRecall ++ [(xy.2, hardOneHot (sigmoidProbs
        (train_step cfg.collab s.bn s.lr s.params s.optSt xy.1 xy.2).1.1))] ∧
    (valBatchBody cfg s xy).valAcc =
      s.valAcc ++ [(xy.2, sigmoidProbs
        (val_step cfg.collab s.bn s.params xy.1))] ∧
    (valBatchBody cfg s xy).valPrec =
      s.valPrec ++ [(xy.2, hardOneHot (sigmoidProbs
        (val_step cfg.collab s.bn s.params xy.1)))] ∧
    (valBatchBody cfg s xy).valRecall =
      s.valRecall ++ [(xy.2, hardOneHot (sigmoidProbs
        (val_step cfg.collab s.bn s.params xy.1)))] :=
  ⟨rfl, rfl, rfl, rfl, rfl, rfl⟩

/-- Claim C10: the parsed wandb setting is True for every command line,
whether or not the flag is passed, since the flag stores True and the
declared default is already True: experiment tracking cannot be disabled
from the command-line surface. -/
theorem C10_wandb_always_true :
    (∀ args : List String, parse_wandb args = true) ∧
    (∀ args : List String,
      parse_wandb (args ++ ["--wandb"]) = parse_wandb args) := by
  have key : ∀ args : List String, parse_wandb args = true := by
    intro args
    show args.foldl (fun acc a => if a = "--wandb" then true else acc) true
      = true
    induction args with
    | nil => rfl
    | cons a t ih =>
        rw [List.foldl_cons]
        by_cases hcase : a = "--wandb"
        · simp only [hcase, if_pos]
          exact ih
        · simp only [if_neg hcase]
          exact ih
  exact ⟨key, fun args => (key _).trans (key args).symm⟩

end Pointnet
